import Mathlib

/-!
Verification of the semantic-evolutionary prompt GA.

Shallow embedding of the core of the repository
(ga/genome.py, metrics/diversity.py, metrics/fitness.py, ga/reporting.py,
ga/evolution.py, the agent wrappers, and the tail of main.py).

Modelling conventions:
- Python floats are embedded as rationals.
- The external LLM service and the zlib compressor are oracles passed in as
  function arguments; the unseeded random draws of the source are likewise
  inputs (one rational per `random.random()` call, one index list per
  `random.sample` call).
- Fallible Python code is embedded in `Except PyExc`; a caught exception is
  collapsed at the same place the source catches it.
-/

/-- Python exception kinds relevant to the embedded code paths. -/
inductive PyExc
  | typeError
  | valueError
  | indexError
deriving DecidableEq, Repr

/-- Truthiness of a Python string: empty strings are falsy. -/
def strTruthy (s : String) : Bool := s ≠ ""

/-- Truthiness of an `Optional[str]` value: `None` and the empty string are falsy. -/
def pyTruthy : Option String → Bool
  | none => false
  | some s => strTruthy s

/-- Python `x or ""` on an `Optional[str]`: `None` becomes the empty string. -/
def pyOrEmpty : Option String → String
  | none => ""
  | some s => s

/-- Python `str.strip()`: remove leading and trailing whitespace. -/
def pyStrip (s : String) : String :=
  ⟨((s.data.dropWhile Char.isWhitespace).reverse.dropWhile Char.isWhitespace).reverse⟩

/-- Python `str.lower()`: lower-case every character. -/
def pyToLower (s : String) : String :=
  ⟨s.data.map Char.toLower⟩

/-- Helper for `pyWhitespaceSplit`: collect maximal non-whitespace runs;
`cur` holds the current run reversed. -/
def wordsAux : List Char → List Char → List String
  | [], cur => if cur = [] then [] else [String.mk cur.reverse]
  | c :: cs, cur =>
    if c.isWhitespace then
      if cur = [] then wordsAux cs []
      else String.mk cur.reverse :: wordsAux cs []
    else wordsAux cs (c :: cur)

/-- Python `str.split()` with no separator: the maximal runs of non-whitespace
characters, in order (runs of whitespace collapse, no empty pieces). -/
def pyWhitespaceSplit (s : String) : List String :=
  wordsAux s.data []

/-- Python `" ".join(words)`, at the character-list level. -/
def joinSpaceData : List String → List Char
  | [] => []
  | [w] => w.data
  | w :: ws => w.data ++ ' ' :: joinSpaceData ws

/-- Python `" ".join(words)`. -/
def joinSpace (l : List String) : String :=
  ⟨joinSpaceData l⟩

/-- ga/genome.py `Individual`: the genome record. `fitness` is a float in the
source, embedded as a rational. -/
structure Individual where
  role : String
  topic : String
  prompt : String
  generated_data : Option String
  fitness : ℚ
deriving DecidableEq, Repr

/-! ## metrics/diversity.py -/

/-- metrics/diversity.py `calculate_compression_ratio`. The zlib compressor is
embedded as the oracle `zlibLen`, giving the length of
`zlib.compress(text.encode(utf8))` or `none` when the compressor raises (the
`except` branch of the source). `len(text.encode(utf8))` is the UTF-8 byte
size of the text. -/
def calculate_compression_ratio (zlibLen : String → Option Nat) (text : String) : ℚ :=
  if text = "" then 1
  else
    let original_size := text.utf8ByteSize
    if original_size = 0 then 1
    else
      match zlibLen text with
      | none => 1
      | some compressed_size =>
        if compressed_size = 0 then 1
        else (original_size : ℚ) / (compressed_size : ℚ)

/-- metrics/diversity.py: default n-gram window lower bound (`n_min = 4`). -/
def N_MIN : Nat := 4

/-- metrics/diversity.py: default n-gram window upper bound (`n_max = 6`). -/
def N_MAX : Nat := 6

/-- The word n-grams of size `n`: one `" ".join(words[i:i+n])` for each
`i in range(len(words) - n + 1)`, none when the text is shorter than `n`. -/
def ngramsAt (words : List String) (n : Nat) : List String :=
  if words.length < n then []
  else (List.range (words.length - n + 1)).map
    (fun i => joinSpace ((words.drop i).take n))

/-- All n-grams of the lower-cased whitespace-tokenized text, for
`n in range(n_min, n_max + 1)` at the default window. -/
def allNgrams (text : String) : List String :=
  let words := pyWhitespaceSplit (pyToLower text)
  (List.range' N_MIN (N_MAX + 1 - N_MIN)).flatMap (fun n => ngramsAt words n)

/-- metrics/diversity.py `calculate_internal_repetition` at the default window
4..6: `(total - unique) / total` over all n-grams, `0.0` when no n-gram
exists. `set(...)` cardinality is the deduplicated length. -/
def calculate_internal_repetition (text : String) : ℚ :=
  let all_ngrams := allNgrams text
  if all_ngrams.isEmpty then 0
  else
    let total_ngrams := all_ngrams.length
    let unique_ngrams := all_ngrams.dedup.length
    ((total_ngrams - unique_ngrams : ℕ) : ℚ) / (total_ngrams : ℚ)

/-! ## metrics/fitness.py -/

/-- metrics/fitness.py `COHERENCE_UPPER_THRESHOLD`. -/
def COHERENCE_UPPER_THRESHOLD : ℚ := 0.8

/-- metrics/fitness.py `STATIC_COHERENCE_PENALTY_FACTOR`. -/
def STATIC_COHERENCE_PENALTY_FACTOR : ℚ := 0.5

/-- metrics/fitness.py `COMPRESSION_THRESHOLD`. -/
def COMPRESSION_THRESHOLD : ℚ := 2.0

/-- metrics/fitness.py `REPETITION_THRESHOLD`. -/
def REPETITION_THRESHOLD : ℚ := 0.5

/-- metrics/fitness.py `DYNAMIC_DIVERSITY_PENALTY_FACTOR`. -/
def DYNAMIC_DIVERSITY_PENALTY_FACTOR : ℚ := 0.1

/-- metrics/fitness.py `_apply_penalties`. The division
`generation / max_generations` is rational division here; in Python it raises
ZeroDivisionError when `max_generations = 0`, so the theorems below restrict
to `0 < max_generations`. -/
def _apply_penalties (zlibLen : String → Option Nat) (individual : Individual)
    (generation max_generations : Nat) : Individual :=
  let base_coherence := individual.fitness
  let text := pyOrEmpty individual.generated_data
  let total_penalty : ℚ := 0
  let total_penalty :=
    if COHERENCE_UPPER_THRESHOLD < base_coherence then
      total_penalty + (base_coherence - COHERENCE_UPPER_THRESHOLD) * STATIC_COHERENCE_PENALTY_FACTOR
    else total_penalty
  let compression_ratio := calculate_compression_ratio zlibLen text
  let repetition_rate := calculate_internal_repetition text
  let is_low_diversity :=
    COMPRESSION_THRESHOLD < compression_ratio ∨ REPETITION_THRESHOLD < repetition_rate
  let total_penalty :=
    if is_low_diversity then
      total_penalty + DYNAMIC_DIVERSITY_PENALTY_FACTOR * ((generation : ℚ) / (max_generations : ℚ))
    else total_penalty
  { individual with fitness := max 0 (base_coherence - total_penalty) }

/-- metrics/fitness.py `evaluate_population_fitness`. The batch BERTScore call
is embedded as the oracle `bert`, one F1 score per (candidate, reference)
pair, consulted only when the candidate list is non-empty (the `if candidates`
guard of the source). -/
def evaluate_population_fitness (bert : String → String → ℚ)
    (zlibLen : String → Option Nat) (population : List Individual)
    (reference_text : String) (generation max_generations : Nat) : List Individual :=
  let candidates := population.map (fun ind => pyOrEmpty ind.generated_data)
  let scored :=
    if candidates.isEmpty then population
    else population.map
      (fun ind => { ind with fitness := bert (pyOrEmpty ind.generated_data) reference_text })
  scored.map (fun ind => _apply_penalties zlibLen ind generation max_generations)

/-! ## ga/reporting.py -/

/-- ga/reporting.py `get_fitness_stats`, restricted to its `mean` field (the only
field the evolution loop and the claims consume): `statistics.mean` of the
fitness scores, `0.0` for an empty population. -/
def get_fitness_stats_mean (population : List Individual) : ℚ :=
  let fitness_scores := population.map (fun ind => ind.fitness)
  if fitness_scores.isEmpty then 0
  else fitness_scores.sum / (fitness_scores.length : ℚ)

/-- Python `max` over a list: raises ValueError on an empty sequence, otherwise
folds keeping the larger value. -/
def pyMax (l : List ℚ) : Except PyExc ℚ :=
  match l with
  | [] => .error .valueError
  | x :: xs => .ok (xs.foldl max x)

/-- Python slice `l[-k:]`: the whole list when `k = 0` (since `-0 == 0`),
otherwise the last `min(k, len(l))` elements. -/
def pyLastSlice {α : Type} (l : List α) (k : Nat) : List α :=
  if k = 0 then l else l.drop (l.length - k)

/-- ga/reporting.py `check_stagnation`: `False` when the history is shorter than
the limit; otherwise compares the first of the last `stagnation_limit` entries
with the `max` of the rest. `relevant[0]` on an empty slice raises IndexError
and `max` of an empty slice raises ValueError, hence the `Except`. -/
def check_stagnation (fitness_history : List ℚ) (stagnation_limit : Nat) :
    Except PyExc Bool :=
  if fitness_history.length < stagnation_limit then .ok false
  else
    let relevant := pyLastSlice fitness_history stagnation_limit
    match relevant with
    | [] => .error .indexError
    | r0 :: rest => do
      let m ← pyMax rest
      pure (decide (m ≤ r0))

/-! ## Agent wrappers (agents/crossover_agent.py, mutation_agent.py,
regenerate_prompt_agent.py, generate_data_agent.py)

Each wrapper builds a prompt pair from its inputs, calls the external LLM
service with a pydantic output model, and returns a payload only when the
response validates against that model. The service response is embedded as an
oracle argument (`none` standing for a failed call or malformed output); the
prompt text itself, which is explicitly out of scope of the spec, is not
modelled. -/

/-- agents/crossover_agent.py `CrossoverOutput`. -/
structure CrossoverOutput where
  new_role : String
  new_topic : String
deriving DecidableEq, Repr

/-- agents/crossover_agent.py `semantic_crossover`: returns the
(new_role, new_topic) of a validated `CrossoverOutput`, `none` otherwise.
The `reference_text`, `llm_agent` and `temperature` parameters only shape the
LLM request and are absorbed into the oracle. -/
def semantic_crossover (parent1 parent2 : Individual)
    (oracle : Option CrossoverOutput) : Option (String × String) :=
  match parent1, parent2, oracle with
  | _, _, some r => some (r.new_role, r.new_topic)
  | _, _, none => none

/-- agents/mutation_agent.py `MutationOutput`. -/
structure MutationOutput where
  new_value : String
deriving DecidableEq, Repr

/-- The per-call inputs of `semantic_mutation` that come from outside the
program text: the `random.random()` draw of step 1 and the LLM response. -/
structure MutationEnv where
  randAttr : ℚ
  oracle : Option MutationOutput
deriving DecidableEq, Repr

/-- agents/mutation_agent.py `semantic_mutation`: picks the attribute to mutate
(`role` iff the fresh draw is `< 0.5`), selects the refine/explore system
prompt from `is_stuck` (prompt text only), queries the LLM, and on a validated
`MutationOutput` rebuilds the pair with the chosen attribute replaced by
`new_value` and the other attribute returned unchanged; `none` on failure. -/
def semantic_mutation (individual : Individual) (reference_text : String)
    (is_stuck : Bool) (env : MutationEnv) : Option (String × String) :=
  let mutateRole := env.randAttr < (0.5 : ℚ)
  match reference_text, is_stuck, env.oracle with
  | _, _, none => none
  | _, _, some out =>
    if mutateRole then some (out.new_value, individual.topic)
    else some (individual.role, out.new_value)

/-- agents/regenerate_prompt_agent.py `RegeneratePromptOutput`. -/
structure RegeneratePromptOutput where
  prompt : String
deriving DecidableEq, Repr

/-- agents/regenerate_prompt_agent.py `regenerate_prompt`: the stripped prompt
of a validated output, `none` on failure. -/
def regenerate_prompt (role topic reference_text : String)
    (oracle : Option RegeneratePromptOutput) : Option String :=
  match role, topic, reference_text, oracle with
  | _, _, _, some r => some (pyStrip r.prompt)
  | _, _, _, none => none

/-- agents/generate_data_agent.py `DataOutput`. -/
structure DataOutput where
  generated_text : String
deriving DecidableEq, Repr

/-- agents/generate_data_agent.py `generate_data_for_individual`: the stripped
generated text of a validated output, `none` on failure. -/
def generate_data_for_individual (individual : Individual) (reference_text : String)
    (oracle : Option DataOutput) : Option String :=
  match individual, reference_text, oracle with
  | _, _, some r => some (pyStrip r.generated_text)
  | _, _, none => none

/-! ## ga/evolution.py -/

/-- ga/evolution.py `CHILD_BATCH_SIZE`. -/
def CHILD_BATCH_SIZE : Nat := 10

/-- ga/evolution.py `STAGNATION_LIMIT`. -/
def STAGNATION_LIMIT : Nat := 3

/-- Python positional-call semantics: binding `given` positional arguments to a
function with `required` non-defaulted parameters raises TypeError when some
required parameter is left unbound. -/
def bindPositional (required given : Nat) : Except PyExc Unit :=
  if given < required then .error .typeError else .ok ()

/-- Number of required positional parameters of
`semantic_crossover(parent1, parent2, reference_text, llm_agent, temperature=0.7)`
in agents/crossover_agent.py. -/
def SEMANTIC_CROSSOVER_REQUIRED_PARAMS : Nat := 4

/-- Number of positional arguments at the call
`await semantic_crossover(parent1, parent2, llm_agent)` in ga/evolution.py
line 49. -/
def EVOLUTION_CROSSOVER_CALL_ARGS : Nat := 3

/-- The crossover call as written at ga/evolution.py line 49: three positional
arguments are supplied for a signature with four required parameters
(`reference_text` is omitted), so Python raises TypeError before the function
body runs; the value the body would otherwise produce is the oracle answer. -/
def crossover_call (parent1 parent2 : Individual) (oracle : Option CrossoverOutput) :
    Except PyExc (Option (String × String)) := do
  let _ ← bindPositional SEMANTIC_CROSSOVER_REQUIRED_PARAMS EVOLUTION_CROSSOVER_CALL_ARGS
  pure (semantic_crossover parent1 parent2 oracle)

/-- How one run of `_process_child_pipeline` can exit early: a `return None`
statement, or a raised exception (both collapse to `None` for the caller). -/
inductive PipeExit
  | retNone
  | exc (e : PyExc)
deriving DecidableEq, Repr

/-- Lift a Python-exception computation into the pipeline-exit monad. -/
def liftPy {α : Type} (x : Except PyExc α) : Except PipeExit α :=
  x.mapError PipeExit.exc

/-- The external inputs consumed by one `_process_child_pipeline` attempt:
the two `random.random()` draws and the four LLM responses (the crossover
response is unreachable, see `crossover_call`). -/
structure ChildEnv where
  randCross : ℚ
  crossOracle : Option CrossoverOutput
  randMut : ℚ
  mutEnv : MutationEnv
  promptOracle : Option RegeneratePromptOutput
  dataOracle : Option DataOutput
deriving Repr

/-- The body of ga/evolution.py `_process_child_pipeline` before its
`except Exception` handler, with `throw .retNone` for each `return None`. -/
def pipeBody (parent1 parent2 : Individual) (reference_text : String)
    (prob_crossover prob_mutation : ℚ) (is_stuck : Bool) (env : ChildEnv) :
    Except PipeExit Individual := do
  let rt ←
    if env.randCross < prob_crossover then do
      let result ← liftPy (crossover_call parent1 parent2 env.crossOracle)
      match result with
      | some (r, t) => pure (some r, some t)
      | none => pure ((none : Option String), (none : Option String))
    else
      pure (some parent1.role, some parent1.topic)
  if !(pyTruthy rt.1 && pyTruthy rt.2) then throw .retNone
  let new_role := pyOrEmpty rt.1
  let new_topic := pyOrEmpty rt.2
  let rt2 ←
    if env.randMut < prob_mutation then do
      let temp_individual : Individual :=
        { role := new_role, topic := new_topic, prompt := "", generated_data := none, fitness := 0 }
      let result := semantic_mutation temp_individual reference_text is_stuck env.mutEnv
      let pair :=
        match result with
        | some (r, t) => (r, t)
        | none => (new_role, new_topic)
      if !(strTruthy pair.1 && strTruthy pair.2) then throw .retNone
      pure pair
    else
      pure (new_role, new_topic)
  let new_prompt := regenerate_prompt rt2.1 rt2.2 reference_text env.promptOracle
  if !(pyTruthy new_prompt) then throw .retNone
  let child : Individual :=
    { role := rt2.1, topic := rt2.2, prompt := pyOrEmpty new_prompt
      generated_data := none, fitness := 0 }
  let new_data := generate_data_for_individual child reference_text env.dataOracle
  if !(pyTruthy new_data) then throw .retNone
  pure { child with generated_data := new_data }

/-- ga/evolution.py `_process_child_pipeline`: the body wrapped in the
`try/except Exception: return None` handler; a `return None` exit likewise
yields `none`. -/
def _process_child_pipeline (parent1 parent2 : Individual) (reference_text : String)
    (prob_crossover prob_mutation : ℚ) (is_stuck : Bool) (env : ChildEnv) :
    Option Individual :=
  match pipeBody parent1 parent2 reference_text prob_crossover prob_mutation is_stuck env with
  | .ok child => some child
  | .error _ => none

/-- ga/evolution.py `tournament_selection`, applied to the candidate list that
`random.sample(population, k)` drew: `max(candidates, key=fitness)`. Python
`max` keeps the earlier element on ties and raises ValueError on an empty
sequence. -/
def tournament_selection (candidates : List Individual) : Except PyExc Individual :=
  match candidates with
  | [] => .error .valueError
  | c :: cs => .ok (cs.foldl (fun acc ind => if acc.fitness < ind.fitness then ind else acc) c)

/-- Python `random.sample(population, k)`: raises ValueError when `k` exceeds
the population size, otherwise returns the `k` members the RNG picks. The RNG
is embedded as the index list `pick`; a trace produced by the real RNG supplies
`k` distinct in-range indices. -/
def random_sample (population : List Individual) (k : Nat) (pick : List Nat) :
    Except PyExc (List Individual) :=
  if population.length < k then .error .valueError
  else .ok ((pick.take k).filterMap (fun i => population[i]?))

/-- The external inputs of one child attempt in the generation loop: the two
`random.sample` draws for the parents and the pipeline inputs. -/
structure AttemptEnv where
  sample1 : List Nat
  sample2 : List Nat
  child : ChildEnv
deriving Repr

/-- One task of the child batch of ga/evolution.py `run_evolution` step 3:
two tournament selections from the current population followed by the child
pipeline. -/
def run_child_attempt (current_population : List Individual) (reference_text : String)
    (k : Nat) (prob_crossover prob_mutation : ℚ) (is_stuck : Bool) (a : AttemptEnv) :
    Except PyExc (Option Individual) := do
  let s1 ← random_sample current_population k a.sample1
  let p1 ← tournament_selection s1
  let s2 ← random_sample current_population k a.sample2
  let p2 ← tournament_selection s2
  pure (_process_child_pipeline p1 p2 reference_text prob_crossover prob_mutation is_stuck a.child)

/-- One batch of `count` child attempts launched together and joined
(`asyncio.gather` keeps input order); `idx` numbers the attempts within the
generation so each consumes its own slot of the attempt stream. -/
def run_child_batch (current_population : List Individual) (reference_text : String)
    (k : Nat) (prob_crossover prob_mutation : ℚ) (is_stuck : Bool)
    (attempts : Nat → AttemptEnv) : Nat → Nat → Except PyExc (List (Option Individual))
  | _, 0 => .ok []
  | idx, count + 1 => do
    let r ← run_child_attempt current_population reference_text k prob_crossover
        prob_mutation is_stuck (attempts idx)
    let rest ← run_child_batch current_population reference_text k prob_crossover
        prob_mutation is_stuck attempts (idx + 1) count
    pure (r :: rest)

/-- Failure modes of the embedded evolution run: a propagated Python exception,
or exhaustion of the fuel bounding the (source-unbounded) child while-loop. -/
inductive RunError
  | exc (e : PyExc)
  | outOfFuel
deriving DecidableEq, Repr

/-- Lift a Python-exception computation into the run monad. -/
def liftRun {α : Type} (x : Except PyExc α) : Except RunError α :=
  x.mapError RunError.exc

/-- The `while len(new_children) < children_to_create` loop of
ga/evolution.py `run_evolution` step 3: keep launching batches of
`min(needed, CHILD_BATCH_SIZE)` attempts and collecting the successful
children. The source has no retry bound, so the loop runs on fuel (one unit
per batch); a run that would loop further returns `.error .outOfFuel`. -/
def create_children_loop (current_population : List Individual) (reference_text : String)
    (k : Nat) (prob_crossover prob_mutation : ℚ) (is_stuck : Bool)
    (attempts : Nat → AttemptEnv) :
    Nat → Nat → List Individual → Nat → Except RunError (List Individual)
  | 0, _, new_children, children_to_create =>
    if children_to_create ≤ new_children.length then .ok new_children
    else .error .outOfFuel
  | fuel + 1, idx, new_children, children_to_create =>
    if children_to_create ≤ new_children.length then .ok new_children
    else do
      let batch_size := min (children_to_create - new_children.length) CHILD_BATCH_SIZE
      let results ← liftRun (run_child_batch current_population reference_text k
          prob_crossover prob_mutation is_stuck attempts idx batch_size)
      let successful_children := results.filterMap id
      create_children_loop current_population reference_text k prob_crossover
        prob_mutation is_stuck attempts fuel (idx + batch_size)
        (new_children ++ successful_children) children_to_create

/-- Stable insertion into a descending-by-fitness list: the inserted element
goes before the first strictly smaller fitness, after equal ones. -/
def insertByFitnessDesc (x : Individual) : List Individual → List Individual
  | [] => [x]
  | y :: ys =>
    if y.fitness ≤ x.fitness then x :: y :: ys
    else y :: insertByFitnessDesc x ys

/-- Python `list.sort(key=fitness, reverse=True)`: stable descending sort. -/
def sortByFitnessDesc : List Individual → List Individual
  | [] => []
  | x :: xs => insertByFitnessDesc x (sortByFitnessDesc xs)

/-- All external inputs of a `run_evolution` call: per generation a stream of
attempt inputs, plus the BERTScore and zlib oracles used by the evaluator. -/
structure EvolutionOracle where
  attempt : Nat → Nat → AttemptEnv
  bert : String → String → ℚ
  zlibLen : String → Option Nat

/-- One iteration of the `for g in range(1, generations + 1)` loop of
ga/evolution.py `run_evolution`: sort descending, stagnation check, elitism,
child production, batch evaluation of the children at generation index `g`,
concatenation elites ++ children, and the history append. `pop_size` is the
length of the population that entered `run_evolution` (computed once before
the loop in the source). -/
def evolution_generation_step (oracle : EvolutionOracle) (reference_text : String)
    (generations k : Nat) (prob_crossover prob_mutation : ℚ)
    (elite_size pop_size fuel g : Nat)
    (current_population : List Individual) (fitness_history : List ℚ) :
    Except RunError (List Individual × List ℚ) := do
  let sorted := sortByFitnessDesc current_population
  let is_stuck ← liftRun (check_stagnation fitness_history STAGNATION_LIMIT)
  let elites := sorted.take elite_size
  let children_to_create := pop_size - elite_size
  let new_children ← create_children_loop sorted reference_text k prob_crossover
      prob_mutation is_stuck (oracle.attempt g) fuel 0 [] children_to_create
  let evaluated_children := evaluate_population_fitness oracle.bert oracle.zlibLen
      new_children reference_text g generations
  let new_population := elites ++ evaluated_children
  let fitness_history2 := fitness_history ++ [get_fitness_stats_mean new_population]
  pure (new_population, fitness_history2)

/-- The generation loop: `gensLeft` iterations remain, `g` is the next
generation index. -/
def run_evolution_go (oracle : EvolutionOracle) (reference_text : String)
    (generations k : Nat) (prob_crossover prob_mutation : ℚ)
    (elite_size pop_size fuel : Nat) :
    Nat → Nat → List Individual → List ℚ → Except RunError (List Individual)
  | 0, _, current_population, _ => .ok current_population
  | gensLeft + 1, g, current_population, fitness_history => do
    let st ← evolution_generation_step oracle reference_text generations k
        prob_crossover prob_mutation elite_size pop_size fuel g
        current_population fitness_history
    run_evolution_go oracle reference_text generations k prob_crossover prob_mutation
      elite_size pop_size fuel gensLeft (g + 1) st.1 st.2

/-- ga/evolution.py `run_evolution`: fixes `pop_size`, seeds the fitness
history with the mean of the incoming population, runs the generation loop for
`generations` iterations, and returns the resulting population (with no
further evaluation of its own). -/
def run_evolution (oracle : EvolutionOracle) (reference_text : String)
    (generations k : Nat) (prob_crossover prob_mutation : ℚ)
    (elite_size fuel : Nat) (population : List Individual) :
    Except RunError (List Individual) :=
  run_evolution_go oracle reference_text generations k prob_crossover prob_mutation
    elite_size population.length fuel generations 1 population
    [get_fitness_stats_mean population]

/-- main.py steps 5/5 and the final consolidated evaluation: run the evolution,
then re-evaluate the returned population once more with
`generation = max_generations = args.generations` against the same reference
text; the re-evaluated population is what `save_population_to_json` persists
as `population_final.json`. -/
def main_final_population (oracle : EvolutionOracle) (reference_text : String)
    (generations k : Nat) (prob_crossover prob_mutation : ℚ)
    (elite_size fuel : Nat) (population : List Individual) :
    Except RunError (List Individual) := do
  let final_population ← run_evolution oracle reference_text generations k
      prob_crossover prob_mutation elite_size fuel population
  pure (evaluate_population_fitness oracle.bert oracle.zlibLen final_population
    reference_text generations generations)

/-! ## Concrete inputs used by the witness theorems -/

/-- A compressor oracle that reports the identity size (ratio 1, never fails). -/
def wZlibId : String → Option Nat := fun s => some s.utf8ByteSize

/-- A compressor oracle that reports a 1-byte output. -/
def wZlibOne : String → Option Nat := fun _ => some 1

/-- A compressor oracle that always fails (the `except` branch). -/
def wZlibFail : String → Option Nat := fun _ => none

/-- A BERTScore oracle that scores every pair 0. -/
def wBertZero : String → String → ℚ := fun _ _ => 0

/-- Concrete individual for the excessive-coherence penalty scenario:
base coherence 0.95 and a low-redundancy generated text. -/
def wPenInd1 : Individual :=
  { role := "r", topic := "t", prompt := "p", generated_data := some "x", fitness := 0.95 }

/-- Concrete individual for the low-diversity penalty scenario: base coherence
0.5 and a generated text whose repetition rate is 3/4 > 0.5. -/
def wPenInd2 : Individual :=
  { role := "r", topic := "t", prompt := "p", generated_data := some "w w w w w w w w", fitness := 0.5 }

/-- Concrete parent 1 for the crossover-branch theorems. -/
def wParent1 : Individual :=
  { role := "r1", topic := "t1", prompt := "p1", generated_data := none, fitness := 0 }

/-- Concrete parent 2 for the crossover-branch theorems. -/
def wParent2 : Individual :=
  { role := "r2", topic := "t2", prompt := "p2", generated_data := none, fitness := 0 }

/-- Concrete pipeline inputs taking the crossover branch (`randCross = 0`),
with every oracle answering successfully. -/
def wCrossEnv : ChildEnv :=
  { randCross := 0, crossOracle := some { new_role := "nr", new_topic := "nt" },
    randMut := 0.9, mutEnv := { randAttr := 0, oracle := none },
    promptOracle := some { prompt := "np" },
    dataOracle := some { generated_text := "nd" } }

/-- Concrete mutation input whose LLM reply echoes the current role. -/
def wMutInd : Individual :=
  { role := "r", topic := "t", prompt := "", generated_data := none, fitness := 0 }

/-- Mutation call inputs: the draw selects the role, the LLM echoes it back. -/
def wMutEnvEcho : MutationEnv := { randAttr := 0, oracle := some { new_value := "r" } }

/-- Mutation call inputs: the draw selects the role, the LLM answers "x". -/
def wMutEnvFresh : MutationEnv := { randAttr := 0, oracle := some { new_value := "x" } }

/-- Mutation call inputs: the LLM call fails. -/
def wMutEnvFail : MutationEnv := { randAttr := 0, oracle := none }

/-- Evolution-run oracle for the concrete end-to-end witnesses: every attempt
copies parent 1 (reproduction branch), every prompt/data call succeeds. -/
def wRunOracle : EvolutionOracle :=
  { attempt := fun _ _ =>
      { sample1 := [0], sample2 := [0],
        child :=
          { randCross := 0.5, crossOracle := none,
            randMut := 0.5, mutEnv := { randAttr := 0, oracle := none },
            promptOracle := some { prompt := "np" },
            dataOracle := some { generated_text := "nd" } } },
    bert := wBertZero,
    zlibLen := wZlibId }

/-- The single member of the concrete initial population. -/
def wRunInd : Individual :=
  { role := "r", topic := "t", prompt := "q", generated_data := some "g", fitness := 0 }

/-- The population produced by the concrete one-generation run:
one child bred by reproduction from `wRunInd`. -/
def wRunOut : List Individual :=
  [{ role := "r", topic := "t", prompt := "np", generated_data := some "nd", fitness := 0 }]

/-! ## Helper lemmas -/

theorem foldl_max_le_iff (l : List ℚ) (a r0 : ℚ) :
    l.foldl max a ≤ r0 ↔ a ≤ r0 ∧ ∀ x ∈ l, x ≤ r0 := by
  induction l generalizing a with
  | nil => simp
  | cons y ys ih =>
    simp only [List.foldl_cons, ih, max_le_iff, List.mem_cons]
    constructor
    · rintro ⟨⟨h1, h2⟩, h3⟩
      exact ⟨h1, fun x hx => hx.elim (fun e => e ▸ h2) (h3 x)⟩
    · rintro ⟨h1, h2⟩
      exact ⟨⟨h1, h2 y (Or.inl rfl)⟩, fun x hx => h2 x (Or.inr hx)⟩

theorem length_insertByFitnessDesc (x : Individual) (l : List Individual) :
    (insertByFitnessDesc x l).length = l.length + 1 := by
  induction l with
  | nil => rfl
  | cons y ys ih =>
    unfold insertByFitnessDesc
    by_cases h : y.fitness ≤ x.fitness <;> simp [h, ih]

theorem length_sortByFitnessDesc (l : List Individual) :
    (sortByFitnessDesc l).length = l.length := by
  induction l with
  | nil => rfl
  | cons x xs ih => simp [sortByFitnessDesc, length_insertByFitnessDesc, ih]

theorem length_evaluate_population_fitness (bert : String → String → ℚ)
    (zlib : String → Option Nat) (pop : List Individual) (ref : String) (g mg : Nat) :
    (evaluate_population_fitness bert zlib pop ref g mg).length = pop.length := by
  unfold evaluate_population_fitness
  by_cases h : (pop.map fun ind => pyOrEmpty ind.generated_data).isEmpty <;> simp [h]

theorem length_filterMap_id_le (l : List (Option Individual)) :
    (l.filterMap id).length ≤ l.length := by
  induction l with
  | nil => simp
  | cons x xs ih => cases x <;> simp [List.filterMap_cons] <;> omega

theorem run_child_batch_length (pop : List Individual) (ref : String) (k : Nat)
    (pc pm : ℚ) (stuck : Bool) (attempts : Nat → AttemptEnv) :
    ∀ count idx results,
      run_child_batch pop ref k pc pm stuck attempts idx count = .ok results →
      results.length = count := by
  intro count
  induction count with
  | zero =>
    intro idx results h
    simp only [run_child_batch] at h
    cases h
    rfl
  | succ n ih =>
    intro idx results h
    simp only [run_child_batch] at h
    cases h1 : run_child_attempt pop ref k pc pm stuck (attempts idx) with
    | error e => rw [h1] at h; simp [Bind.bind, Except.bind] at h
    | ok r =>
      rw [h1] at h
      cases h2 : run_child_batch pop ref k pc pm stuck attempts (idx + 1) n with
      | error e => rw [h2] at h; simp [Bind.bind, Except.bind] at h
      | ok rest =>
        rw [h2] at h
        simp only [Bind.bind, Except.bind, pure, Except.pure, Except.ok.injEq] at h
        subst h
        simp [ih _ _ h2]

theorem create_children_loop_length (pop : List Individual) (ref : String) (k : Nat)
    (pc pm : ℚ) (stuck : Bool) (attempts : Nat → AttemptEnv) :
    ∀ fuel idx acc need, acc.length ≤ need →
      ∀ res, create_children_loop pop ref k pc pm stuck attempts fuel idx acc need = .ok res →
        res.length = need := by
  intro fuel
  induction fuel with
  | zero =>
    intro idx acc need hle res h
    simp only [create_children_loop] at h
    by_cases hc : need ≤ acc.length
    · rw [if_pos hc] at h; cases h; omega
    · rw [if_neg hc] at h; simp at h
  | succ n ih =>
    intro idx acc need hle res h
    simp only [create_children_loop] at h
    by_cases hc : need ≤ acc.length
    · rw [if_pos hc] at h; cases h; omega
    · rw [if_neg hc] at h
      cases hb : run_child_batch pop ref k pc pm stuck attempts idx
          (min (need - acc.length) CHILD_BATCH_SIZE) with
      | error e =>
        rw [hb] at h
        simp [liftRun, Except.mapError, Bind.bind, Except.bind] at h
      | ok results =>
        rw [hb] at h
        simp only [liftRun, Except.mapError, Bind.bind, Except.bind] at h
        refine ih _ _ _ ?_ _ h
        have hr := run_child_batch_length pop ref k pc pm stuck attempts _ _ _ hb
        have hf := length_filterMap_id_le results
        rw [List.length_append]
        omega

theorem evolution_generation_step_length (oracle : EvolutionOracle) (ref : String)
    (generations k : Nat) (pc pm : ℚ) (elite_size pop_size fuel g : Nat)
    (current : List Individual) (hist : List ℚ)
    (hcur : current.length = pop_size) (helite : elite_size ≤ pop_size)
    (new : List Individual) (hist2 : List ℚ)
    (h : evolution_generation_step oracle ref generations k pc pm elite_size pop_size
        fuel g current hist = .ok (new, hist2)) :
    new.length = current.length := by
  simp only [evolution_generation_step] at h
  cases hs : check_stagnation hist STAGNATION_LIMIT with
  | error e =>
    rw [hs] at h
    simp [liftRun, Except.mapError, Bind.bind, Except.bind] at h
  | ok stuck =>
    rw [hs] at h
    simp only [liftRun, Except.mapError, Bind.bind, Except.bind] at h
    cases hcl : create_children_loop (sortByFitnessDesc current) ref k pc pm stuck
        (oracle.attempt g) fuel 0 [] (pop_size - elite_size) with
    | error e => rw [hcl] at h; simp at h
    | ok children =>
      rw [hcl] at h
      simp only [pure, Except.pure, Except.ok.injEq, Prod.mk.injEq] at h
      obtain ⟨hnew, _⟩ := h
      have hch := create_children_loop_length _ _ _ _ _ _ _ _ _ _ _
        (by simp) _ hcl
      subst hnew
      rw [List.length_append, List.length_take, length_sortByFitnessDesc,
        length_evaluate_population_fitness, hcur, hch]
      omega

theorem run_evolution_go_length (oracle : EvolutionOracle) (ref : String)
    (generations k : Nat) (pc pm : ℚ) (elite_size pop_size fuel : Nat)
    (helite : elite_size ≤ pop_size) :
    ∀ gensLeft g current hist, current.length = pop_size →
      ∀ res, run_evolution_go oracle ref generations k pc pm elite_size pop_size fuel
          gensLeft g current hist = .ok res →
        res.length = pop_size := by
  intro gensLeft
  induction gensLeft with
  | zero =>
    intro g current hist hcur res h
    simp only [run_evolution_go] at h
    cases h
    exact hcur
  | succ n ih =>
    intro g current hist hcur res h
    simp only [run_evolution_go] at h
    cases hstep : evolution_generation_step oracle ref generations k pc pm elite_size
        pop_size fuel g current hist with
    | error e => rw [hstep] at h; simp [Bind.bind, Except.bind] at h
    | ok st =>
      rw [hstep] at h
      simp only [Bind.bind, Except.bind] at h
      have hlen := evolution_generation_step_length oracle ref generations k pc pm
        elite_size pop_size fuel g current hist hcur helite st.1 st.2 (by rw [← hstep])
      exact ih _ _ _ (by rw [hlen, hcur]) _ h

/-! ## Claim theorems -/

/-- C2: the compression-ratio redundancy function returns exactly 1.0 when the
text is the empty string, returns 1.0 on any compressor failure (the function
is total, so it never raises), and returns a value that is at least 1.0 for
every non-empty compressible text, where a text is compressible when the
compressor output is no longer than the UTF-8 encoding of the text. -/
theorem compression_ratio_spec (zlibLen : String → Option Nat) (t : String) :
    calculate_compression_ratio zlibLen "" = 1
    ∧ (zlibLen t = none → calculate_compression_ratio zlibLen t = 1)
    ∧ (∀ c, t ≠ "" → zlibLen t = some c → c ≤ t.utf8ByteSize →
        1 ≤ calculate_compression_ratio zlibLen t) := by
  refine ⟨rfl, ?_, ?_⟩
  · intro hn
    unfold calculate_compression_ratio
    by_cases ht : t = ""
    · simp [ht]
    · simp only [ht, if_false]
      by_cases hz : t.utf8ByteSize = 0
      · simp [hz]
      · simp [hz, hn]
  · intro c ht hc hle
    unfold calculate_compression_ratio
    rw [if_neg ht, hc]
    by_cases hz : t.utf8ByteSize = 0
    · simp [hz]
    · rw [if_neg hz]
      by_cases hc0 : c = 0
      · simp [hc0]
      · show 1 ≤ if c = 0 then 1 else ((t.utf8ByteSize : ℚ) / (c : ℚ))
        rw [if_neg hc0]
        have hcpos : (0 : ℚ) < (c : ℚ) := by
          exact_mod_cast Nat.pos_of_ne_zero hc0
        rw [one_le_div hcpos]
        exact_mod_cast hle

/-- C2 witness: at the failing compressor the ratio of "ab" is 1; at a
compressor reporting one byte for the two-byte text "ab" the ratio is at
least 1. -/
theorem compression_ratio_spec_witness :
    calculate_compression_ratio wZlibFail "ab" = 1
    ∧ 1 ≤ calculate_compression_ratio wZlibOne "ab" :=
  ⟨(compression_ratio_spec wZlibFail "ab").2.1 rfl,
   (compression_ratio_spec wZlibOne "ab").2.2 1 (by decide) rfl (by decide)⟩

/-- C9: calling the fitness evaluator on an empty population performs no
similarity scoring (the result does not depend on the BERTScore oracle) and
assigns no fitness: it returns the unchanged empty population, and being a
total function it raises no error. -/
theorem evaluate_empty_population_noop (bert bert2 : String → String → ℚ)
    (zlib : String → Option Nat) (ref : String) (g mg : Nat) :
    evaluate_population_fitness bert zlib [] ref g mg = []
    ∧ evaluate_population_fitness bert zlib [] ref g mg
      = evaluate_population_fitness bert2 zlib [] ref g mg :=
  ⟨rfl, rfl⟩

/-- C10: the internal repetition rate always lies in [0, 1]; it is 0 whenever
the lower-cased whitespace-tokenized text has fewer words than the minimum
n-gram size 4 (so no n-gram exists for any n in the 4..6 window), and 0
whenever every n-gram occurring in the window is unique. -/
theorem internal_repetition_spec (t : String) :
    (0 ≤ calculate_internal_repetition t ∧ calculate_internal_repetition t ≤ 1)
    ∧ ((pyWhitespaceSplit (pyToLower t)).length < N_MIN → calculate_internal_repetition t = 0)
    ∧ ((allNgrams t).Nodup → calculate_internal_repetition t = 0) := by
  refine ⟨⟨?_, ?_⟩, ?_, ?_⟩
  · unfold calculate_internal_repetition
    by_cases he : (allNgrams t).isEmpty
    · simp [he]
    · simp only [he, if_false]
      positivity
  · unfold calculate_internal_repetition
    by_cases he : (allNgrams t).isEmpty
    · simp [he]
    · simp only [he, if_false]
      have hpos : 0 < ((allNgrams t).length : ℚ) := by
        have : (allNgrams t) ≠ [] := by
          intro hcon; rw [hcon] at he; simp at he
        have : 0 < (allNgrams t).length := List.length_pos.mpr this
        exact_mod_cast this
      rw [if_neg (by simp), div_le_one hpos]
      exact_mod_cast Nat.sub_le _ _
  · intro hw
    have hnil : allNgrams t = [] := by
      unfold allNgrams
      have h4 : (pyWhitespaceSplit (pyToLower t)).length < 4 := hw
      have he4 : ngramsAt (pyWhitespaceSplit (pyToLower t)) 4 = [] := by
        unfold ngramsAt; rw [if_pos h4]
      have he5 : ngramsAt (pyWhitespaceSplit (pyToLower t)) 5 = [] := by
        unfold ngramsAt; rw [if_pos (by omega)]
      have he6 : ngramsAt (pyWhitespaceSplit (pyToLower t)) 6 = [] := by
        unfold ngramsAt; rw [if_pos (by omega)]
      have hr : List.range' N_MIN (N_MAX + 1 - N_MIN) = [4, 5, 6] := rfl
      rw [hr]
      simp [he4, he5, he6]
    unfold calculate_internal_repetition
    simp [hnil]
  · intro hnd
    unfold calculate_internal_repetition
    by_cases he : (allNgrams t).isEmpty
    · simp [he]
    · simp only [he, if_false]
      rw [List.dedup_eq_self.mpr hnd]
      simp

/-- C10 witness: "a b c" has 3 < 4 words, so the rate is 0; the 7-word text
"a b c d e f g" has only unique n-grams in the 4..6 window, so its rate is
also 0. -/
theorem internal_repetition_spec_witness :
    calculate_internal_repetition "a b c" = 0
    ∧ calculate_internal_repetition "a b c d e f g" = 0 :=
  ⟨(internal_repetition_spec "a b c").2.1 (by decide),
   (internal_repetition_spec "a b c d e f g").2.2 (by decide)⟩

/-- C5: the penalty stage subtracts `(c - 0.8) * 0.5` from base coherence `c`
exactly when `c > 0.8`, and additionally subtracts
`0.1 * (generation / max_generations)` exactly when the generated text has
compression ratio above 2.0 or repetition rate above 0.5; in particular base
coherence 0.95 with a low-redundancy text yields 0.875, and base coherence 0.5
with repetition rate above 0.5 at generation 5 of 10 yields 0.45. Stated for
`0 < max_generations` (the Python division raises otherwise). -/
theorem apply_penalties_spec (zlibLen : String → Option Nat) (ind : Individual)
    (g mg : Nat) (hmg : 0 < mg) :
    ((_apply_penalties zlibLen ind g mg).fitness =
      max 0 (ind.fitness
        - (if COHERENCE_UPPER_THRESHOLD < ind.fitness
            then (ind.fitness - COHERENCE_UPPER_THRESHOLD) * STATIC_COHERENCE_PENALTY_FACTOR
            else 0)
        - (if COMPRESSION_THRESHOLD
              < calculate_compression_ratio zlibLen (pyOrEmpty ind.generated_data)
            ∨ REPETITION_THRESHOLD
              < calculate_internal_repetition (pyOrEmpty ind.generated_data)
            then DYNAMIC_DIVERSITY_PENALTY_FACTOR * ((g : ℚ) / (mg : ℚ))
            else 0)))
    ∧ (ind.fitness = 0.95 →
        calculate_compression_ratio zlibLen (pyOrEmpty ind.generated_data)
          ≤ COMPRESSION_THRESHOLD →
        calculate_internal_repetition (pyOrEmpty ind.generated_data)
          ≤ REPETITION_THRESHOLD →
        (_apply_penalties zlibLen ind g mg).fitness = 0.875)
    ∧ (ind.fitness = 0.5 → g = 5 → mg = 10 →
        REPETITION_THRESHOLD < calculate_internal_repetition (pyOrEmpty ind.generated_data) →
        (_apply_penalties zlibLen ind g mg).fitness = 0.45) := by
  have hmain : (_apply_penalties zlibLen ind g mg).fitness =
      max 0 (ind.fitness
        - (if COHERENCE_UPPER_THRESHOLD < ind.fitness
            then (ind.fitness - COHERENCE_UPPER_THRESHOLD) * STATIC_COHERENCE_PENALTY_FACTOR
            else 0)
        - (if COMPRESSION_THRESHOLD
              < calculate_compression_ratio zlibLen (pyOrEmpty ind.generated_data)
            ∨ REPETITION_THRESHOLD
              < calculate_internal_repetition (pyOrEmpty ind.generated_data)
            then DYNAMIC_DIVERSITY_PENALTY_FACTOR * ((g : ℚ) / (mg : ℚ))
            else 0)) := by
    unfold _apply_penalties
    by_cases h1 : COHERENCE_UPPER_THRESHOLD < ind.fitness <;>
      by_cases h2 : COMPRESSION_THRESHOLD
            < calculate_compression_ratio zlibLen (pyOrEmpty ind.generated_data)
          ∨ REPETITION_THRESHOLD
            < calculate_internal_repetition (pyOrEmpty ind.generated_data) <;>
      simp only [h1, h2, if_true, if_false, ite_true, ite_false] <;>
      · congr 1
        ring
  refine ⟨hmain, ?_, ?_⟩
  · intro hf hcr hrr
    rw [hmain, hf]
    rw [if_pos (by norm_num [COHERENCE_UPPER_THRESHOLD])]
    rw [if_neg (by push_neg; exact ⟨not_lt.mp (by exact not_lt.mpr hcr), not_lt.mp (by exact not_lt.mpr hrr)⟩)]
    norm_num [COHERENCE_UPPER_THRESHOLD, STATIC_COHERENCE_PENALTY_FACTOR]
  · intro hf hg hmg10 hrep
    subst hg; subst hmg10
    rw [hmain, hf]
    rw [if_neg (by norm_num [COHERENCE_UPPER_THRESHOLD])]
    rw [if_pos (Or.inr hrep)]
    norm_num [DYNAMIC_DIVERSITY_PENALTY_FACTOR]

/-- C5 witness: the two concrete scenarios, with the identity-size compressor
(ratio 1): base coherence 0.95, text "x" (repetition 0) gives 0.875; base
coherence 0.5, text "w w w w w w w w" (repetition 3/4) at generation 5 of 10
gives 0.45. -/
theorem apply_penalties_spec_witness :
    (_apply_penalties wZlibId wPenInd1 3 10).fitness = 0.875
    ∧ (_apply_penalties wZlibId wPenInd2 5 10).fitness = 0.45 := by
  have hcr : calculate_compression_ratio wZlibId (pyOrEmpty wPenInd1.generated_data)
      = ((1 : ℕ) : ℚ) / ((1 : ℕ) : ℚ) := rfl
  have hrr : calculate_internal_repetition (pyOrEmpty wPenInd1.generated_data) = 0 := rfl
  have hrep : calculate_internal_repetition (pyOrEmpty wPenInd2.generated_data)
      = ((9 : ℕ) : ℚ) / ((12 : ℕ) : ℚ) := rfl
  refine ⟨(apply_penalties_spec wZlibId wPenInd1 3 10 (by norm_num)).2.1 rfl ?_ ?_,
    (apply_penalties_spec wZlibId wPenInd2 5 10 (by norm_num)).2.2 rfl rfl rfl ?_⟩
  · rw [hcr]; norm_num [COMPRESSION_THRESHOLD]
  · rw [hrr]; norm_num [REPETITION_THRESHOLD]
  · rw [hrep]; norm_num [REPETITION_THRESHOLD]

/-- C6: every fitness value written by the evaluator is at least 0.0 whatever
the accumulated penalties (the final fitness is `max(0.0, base - penalty)`);
stated for `0 < max_generations`, since at `max_generations = 0` the Python
evaluator raises ZeroDivisionError on the penalty ramp before writing any
fitness. -/
theorem evaluator_fitness_nonneg (bert : String → String → ℚ)
    (zlib : String → Option Nat) (pop : List Individual) (ref : String) (g mg : Nat)
    (hmg : 0 < mg) :
    ∀ ind ∈ evaluate_population_fitness bert zlib pop ref g mg, 0 ≤ ind.fitness := by
  intro ind hind
  unfold evaluate_population_fitness at hind
  obtain ⟨src, hsrc, rfl⟩ := List.mem_map.mp hind
  show (0 : ℚ) ≤ (_apply_penalties zlib src g mg).fitness
  unfold _apply_penalties
  exact le_max_left _ _

/-- C6 witness: the evaluated form of the concrete individual `wRunInd` under
the zero BERTScore oracle has non-negative fitness. -/
theorem evaluator_fitness_nonneg_witness :
    0 ≤ (_apply_penalties wZlibId
      { wRunInd with fitness := wBertZero (pyOrEmpty wRunInd.generated_data) "ref" }
      0 10).fitness :=
  evaluator_fitness_nonneg wBertZero wZlibId [wRunInd] "ref" 0 10 (by norm_num)
    _ (by simp [evaluate_population_fitness])

theorem check_stagnation_short (hist : List ℚ) (w : Nat) (h : hist.length < w) :
    check_stagnation hist w = .ok false := by
  unfold check_stagnation
  rw [if_pos h]

theorem check_stagnation_char (hist : List ℚ) (w : Nat) (hw : 2 ≤ w)
    (r0 : ℚ) (rest : List ℚ) (hlen : w ≤ hist.length)
    (hslice : pyLastSlice hist w = r0 :: rest) :
    check_stagnation hist w = .ok (decide (∀ x ∈ rest, x ≤ r0)) := by
  unfold check_stagnation
  rw [if_neg (not_lt.mpr hlen), hslice]
  have hslen : (pyLastSlice hist w).length = w := by
    unfold pyLastSlice
    rw [if_neg (by omega), List.length_drop]
    omega
  rw [hslice] at hslen
  simp only [List.length_cons] at hslen
  cases rest with
  | nil => simp at hslen; omega
  | cons y ys =>
    show Except.bind (pyMax (y :: ys)) _ = _
    simp only [pyMax, Except.bind]
    congr 1
    rw [decide_eq_decide, List.forall_mem_cons, foldl_max_le_iff]

/-- C4: the stagnation predicate is false whenever the history has fewer than
`w` entries; otherwise it returns (without raising) true iff the first of the
last `w` entries is at least every one of the remaining `w - 1` entries (their
maximum); concretely, history [0.5, 0.6, 0.6, 0.6] with window 3 gives true
and [0.5, 0.6, 0.7, 0.8] with window 3 gives false. Stated for windows
`w ≥ 2` (at `w = 1` Python evaluates `max([])`, which raises ValueError, and
at `w = 0` the slice `[-0:]` degenerates to the whole history). -/
theorem check_stagnation_spec (hist : List ℚ) (w : Nat) (hw : 2 ≤ w) :
    (hist.length < w → check_stagnation hist w = .ok false)
    ∧ (∀ r0 rest, w ≤ hist.length → pyLastSlice hist w = r0 :: rest →
        check_stagnation hist w = .ok (decide (∀ x ∈ rest, x ≤ r0)))
    ∧ check_stagnation [0.5, 0.6, 0.6, 0.6] 3 = .ok true
    ∧ check_stagnation [0.5, 0.6, 0.7, 0.8] 3 = .ok false := by
  refine ⟨check_stagnation_short hist w, fun r0 rest hlen hslice =>
    check_stagnation_char hist w hw r0 rest hlen hslice, ?_, ?_⟩
  · rw [check_stagnation_char [0.5, 0.6, 0.6, 0.6] 3 (by norm_num) 0.6 [0.6, 0.6]
      (by simp) rfl]
    have h : ∀ x ∈ [(0.6 : ℚ), 0.6], x ≤ 0.6 := by norm_num
    rw [decide_eq_true h]
  · rw [check_stagnation_char [0.5, 0.6, 0.7, 0.8] 3 (by norm_num) 0.6 [0.7, 0.8]
      (by simp) rfl]
    have h : ¬ ∀ x ∈ [(0.7 : ℚ), 0.8], x ≤ 0.6 := by norm_num
    rw [decide_eq_false h]

/-- C4 witness: the short-history case at history [0.5] with window 3, and the
general characterization at history [0.5, 0.6, 0.6, 0.6] with window 3. -/
theorem check_stagnation_spec_witness :
    check_stagnation [0.5] 3 = .ok false
    ∧ check_stagnation [0.5, 0.6, 0.6, 0.6] 3
      = .ok (decide (∀ x ∈ [(0.6 : ℚ), 0.6], x ≤ 0.6)) :=
  ⟨(check_stagnation_spec [0.5] 3 (by norm_num)).1 (by simp),
   (check_stagnation_spec [0.5, 0.6, 0.6, 0.6] 3 (by norm_num)).2.1 0.6 [0.6, 0.6]
     (by simp) rfl⟩

/-- C7 counterexample: a successful mutation call (the LLM reply validates, so
the result is not `none`) whose reply echoes the current role back: the
returned pair equals the input pair, so no attribute — rather than exactly
one — is changed. -/
theorem semantic_mutation_unchanged_counterexample :
    semantic_mutation wMutInd "ref" false wMutEnvEcho = some (wMutInd.role, wMutInd.topic)
    ∧ wMutEnvEcho.oracle ≠ none := by
  constructor
  · show semantic_mutation wMutInd "ref" false wMutEnvEcho = some ("r", "t")
    have h0 : (0 : ℚ) < 0.5 := by norm_num
    simp [semantic_mutation, wMutInd, wMutEnvEcho, h0]
  · simp [wMutEnvEcho]

/-- C7 amended: on failure the mutation operator returns `none`; on success it
returns the pair with the selected attribute (role iff the fresh uniform draw
is below 0.5) replaced by the LLM value — which the code does not require to
differ from the old value — and the other attribute returned unchanged, so at
most one attribute differs from the input. -/
theorem semantic_mutation_spec (individual : Individual) (reference_text : String)
    (is_stuck : Bool) (env : MutationEnv) :
    (env.oracle = none → semantic_mutation individual reference_text is_stuck env = none)
    ∧ (∀ out, env.oracle = some out →
        semantic_mutation individual reference_text is_stuck env =
          some (if env.randAttr < 0.5 then (out.new_value, individual.topic)
                else (individual.role, out.new_value)))
    ∧ (∀ r t, semantic_mutation individual reference_text is_stuck env = some (r, t) →
        r = individual.role ∨ t = individual.topic) := by
  refine ⟨?_, ?_, ?_⟩
  · intro h
    unfold semantic_mutation
    rw [h]
  · intro out h
    unfold semantic_mutation
    rw [h]
    by_cases hr : env.randAttr < (0.5 : ℚ) <;> simp [hr]
  · intro r t h
    unfold semantic_mutation at h
    cases ho : env.oracle with
    | none => rw [ho] at h; simp at h
    | some out =>
      rw [ho] at h
      by_cases hr : env.randAttr < (0.5 : ℚ)
      · simp only [hr, if_true, ite_true, Option.some.injEq, Prod.mk.injEq] at h
        exact Or.inr h.2.symm
      · simp only [hr, if_false, ite_false, Option.some.injEq, Prod.mk.injEq] at h
        exact Or.inl h.1.symm

/-- C7 witness for the amended claim: with the draw selecting the role and the
LLM answering "x", the result replaces the role and keeps the topic; with a
failing LLM call the result is `none`. -/
theorem semantic_mutation_spec_witness :
    semantic_mutation wMutInd "ref" false wMutEnvFresh = some ("x", "t")
    ∧ semantic_mutation wMutInd "ref" false wMutEnvFail = none := by
  constructor
  · have h := (semantic_mutation_spec wMutInd "ref" false wMutEnvFresh).2.1
      { new_value := "x" } rfl
    rw [h, if_pos (by norm_num [wMutEnvFresh])]
    rfl
  · exact (semantic_mutation_spec wMutInd "ref" false wMutEnvFail).1 rfl

/-- C1: at the call site in ga/evolution.py line 49, `semantic_crossover` is
invoked with three positional arguments (`parent1, parent2, llm_agent`)
although its signature requires four (`parent1, parent2, reference_text,
llm_agent`), so whenever the crossover branch is taken
(`random.random() < prob_crossover`) the call raises TypeError before reaching
the LLM, the blanket `except` turns the attempt into `None`, and no child is
ever produced by the crossover branch — contradicting the claimed behaviour
that the child carries the crossover output; with `prob_crossover = 1.0` no
child can be produced at all. -/
theorem crossover_branch_no_child (parent1 parent2 : Individual) (reference_text : String)
    (prob_crossover prob_mutation : ℚ) (is_stuck : Bool) (env : ChildEnv)
    (h : env.randCross < prob_crossover) :
    crossover_call parent1 parent2 env.crossOracle = .error .typeError
    ∧ _process_child_pipeline parent1 parent2 reference_text prob_crossover prob_mutation
        is_stuck env = none := by
  refine ⟨rfl, ?_⟩
  unfold _process_child_pipeline pipeBody
  rw [if_pos h]
  rfl

/-- C1 witness: with `prob_crossover = 1` and the draw 0, at parents with
non-empty roles and topics and with every LLM oracle answering successfully,
the pipeline still produces no child. -/
theorem crossover_branch_no_child_witness :
    wCrossEnv.randCross < (1 : ℚ)
    ∧ _process_child_pipeline wParent1 wParent2 "ref" 1 0 false wCrossEnv = none :=
  ⟨by norm_num [wCrossEnv],
   (crossover_branch_no_child wParent1 wParent2 "ref" 1 0 false wCrossEnv
     (by norm_num [wCrossEnv])).2⟩

/-- C8: for every generation of the evolution loop, given
`elite_size ≤ population size` and assuming the child-production loop
terminates (the run returns `ok` rather than running out of fuel), the new
population has the same length as the current one: the `elite_size` carried
elites plus the exactly `pop_size - elite_size` collected children; and
consequently a whole successful run returns a population of the same length
it received. -/
theorem population_size_invariant (oracle : EvolutionOracle) (reference_text : String)
    (generations k : Nat) (prob_crossover prob_mutation : ℚ)
    (elite_size pop_size fuel g : Nat) :
    (∀ current hist new_pop hist2, current.length = pop_size → elite_size ≤ pop_size →
        evolution_generation_step oracle reference_text generations k prob_crossover
          prob_mutation elite_size pop_size fuel g current hist = .ok (new_pop, hist2) →
        new_pop.length = current.length)
    ∧ (∀ population result, elite_size ≤ population.length →
        run_evolution oracle reference_text generations k prob_crossover prob_mutation
          elite_size fuel population = .ok result →
        result.length = population.length) := by
  constructor
  · intro current hist new_pop hist2 hcur helite h
    exact evolution_generation_step_length oracle reference_text generations k
      prob_crossover prob_mutation elite_size pop_size fuel g current hist hcur helite
      new_pop hist2 h
  · intro population result helite h
    exact run_evolution_go_length oracle reference_text generations k prob_crossover
      prob_mutation elite_size population.length fuel helite generations 1 population
      _ rfl result h

/-- C8 witness: a concrete successful one-generation run (population [wRunInd],
elite size 1) preserves the population length. -/
theorem population_size_invariant_witness :
    (run_evolution wRunOracle "ref" 1 1 0 0 1 0 [wRunInd] = .ok [wRunInd])
    ∧ (1 : Nat) ≤ [wRunInd].length
    ∧ ([wRunInd] : List Individual).length = [wRunInd].length :=
  ⟨rfl, by decide,
   (population_size_invariant wRunOracle "ref" 1 1 0 0 1 1 0 1).2 [wRunInd] [wRunInd]
     (by decide) rfl⟩

/-- C3: after the evolution loop returns, the program performs exactly one
additional full fitness evaluation of the terminal population, against the same
reference text, at generation index equal to the total generation count
(`generation = max_generations = generations`), and persists that re-evaluated
population as the final result; every member of the persisted population —
elites included — is the penalty-stage image, at that final index, of a member
of the loop output freshly scored against the reference. -/
theorem final_reevaluation_spec (oracle : EvolutionOracle) (reference_text : String)
    (generations k : Nat) (prob_crossover prob_mutation : ℚ) (elite_size fuel : Nat)
    (population p : List Individual)
    (h : run_evolution oracle reference_text generations k prob_crossover prob_mutation
        elite_size fuel population = .ok p) :
    main_final_population oracle reference_text generations k prob_crossover prob_mutation
        elite_size fuel population
      = .ok (evaluate_population_fitness oracle.bert oracle.zlibLen p reference_text
          generations generations)
    ∧ ∀ ind ∈ evaluate_population_fitness oracle.bert oracle.zlibLen p reference_text
        generations generations,
        ∃ src ∈ p,
          ind = _apply_penalties oracle.zlibLen
            { src with fitness := oracle.bert (pyOrEmpty src.generated_data) reference_text }
            generations generations := by
  constructor
  · unfold main_final_population
    rw [h]
    rfl
  · intro ind hind
    cases p with
    | nil => simp [evaluate_population_fitness] at hind
    | cons q qs =>
      unfold evaluate_population_fitness at hind
      simp only [List.map_cons, List.isEmpty_cons, if_false, Bool.false_eq_true,
        List.map_map] at hind
      rcases List.mem_cons.mp hind with rfl | hmem
      · exact ⟨q, List.mem_cons_self _ _, rfl⟩
      · obtain ⟨src, hsrc, heq⟩ := List.mem_map.mp hmem
        exact ⟨src, List.mem_cons_of_mem _ hsrc, heq.symm⟩

/-- C3 witness: for the concrete successful run of `wRunOracle` on [wRunInd],
the persisted final population is the one extra evaluation of the loop output
at generation index 1 of 1. -/
theorem final_reevaluation_spec_witness :
    main_final_population wRunOracle "ref" 1 1 0 0 1 0 [wRunInd]
      = .ok (evaluate_population_fitness wRunOracle.bert wRunOracle.zlibLen [wRunInd]
          "ref" 1 1) :=
  (final_reevaluation_spec wRunOracle "ref" 1 1 0 0 1 0 [wRunInd] [wRunInd] rfl).1
